import Mathlib

/-!
Shallow embedding of the TUN data-plane transport layer
(`tun/tun_dragonfly.go`, `conn.go`) of a WireGuard implementation.

Pure data flow is translated to Lean functions; OS effects (ioctl results,
socket operations, file descriptor close results) are passed in explicitly
as environment records, and each modelled operation returns a trace record
carrying the resulting state together with the observable effects
(descriptor closed or not, number of underlying calls made, return value).
Machine integers (Go `int`, `uint16`, `uint32`) are modelled as `Nat`/`Int`;
no arithmetic in the modelled paths overflows.  Go `nil`-able errors are
`Option Err`; fallible functions return `Except Err _`.
-/

/-- Error values: an abstract identifier (the Go code only propagates the
underlying `error` value, never inspects it). -/
abbrev Err := String

deriving instance DecidableEq for Except

/-- Constant `Version = 6` from golang.org/x/net/ipv6: the IP version number of IPv6. -/
def ipv6Version : Nat := 6

/-- Constant `unix.AF_INET` on DragonflyBSD. -/
def AF_INET : Nat := 2

/-- Constant `unix.AF_INET6` on DragonflyBSD. -/
def AF_INET6 : Nat := 28

/-- Constant `unix.IFNAMSIZ` on DragonflyBSD: interface name buffer size. -/
def IFNAMSIZ : Nat := 16

/-- Constant `unix.RTM_IFINFO` on DragonflyBSD: routing-message kind for interface
info notifications (`data[3]` tag value). -/
def RTM_IFINFO : Nat := 0xe

/-! ## TUN packet transport: `Write` (tun_dragonfly.go, `func (tun *nativeTun) Write`)

The Go code does
```
buff = buff[offset-4:]
buff[0] = 0x00; buff[1] = 0x00; buff[2] = 0x00
if buff[4]>>4 == ipv6.Version { buff[3] = unix.AF_INET6 } else { buff[3] = unix.AF_INET }
return tun.fd.Write(buff)
```
A panicking slice or index access is modelled as `none`.  The `some` result
is the byte sequence actually handed to `tun.fd.Write`: the 4-byte
address-family prefix followed by the payload bytes from `offset` on. -/
def tunWrite (buff : List Nat) (offset : Nat) : Option (List Nat) :=
  if offset < 4 then
    -- buff[offset-4:] with a negative index panics in Go
    none
  else
    let b := buff.drop (offset - 4)
    -- buff[offset-4:] itself panics when offset-4 > len(buff); then `b.get? 4`
    -- is `none` as well, so one guard covers both out-of-bounds accesses
    match b[4]? with
    | none => none  -- accessing buff[0..4] of the resliced buffer panics
    | some first =>
        let fam := if first / 16 = ipv6Version then AF_INET6 else AF_INET
        some (0 :: 0 :: 0 :: fam :: b.drop 4)

/-! ## TUN packet transport: `doRead` (tun_dragonfly.go, `func (tun *nativeTun) doRead`)

```
select {
case err := <-tun.errors:
    return 0, err
default:
    buff := buff[offset-4:]
    n, err := tun.fd.Read(buff[:])
    if n < 4 { return 0, err }
    return n - 4, err
}
```
The single-slot fatal-error channel is `errSlot`; the underlying
`tun.fd.Read` outcome is passed in as `readN, readErr`. -/
def doRead (errSlot : Option Err) (readN : Nat) (readErr : Option Err)
    (buff : List Nat) (offset : Nat) : Option (Nat × Option Err) :=
  match errSlot with
  | some e => some (0, some e)
  | none =>
      if offset < 4 then
        none  -- buff[offset-4:] with a negative index panics
      else if buff.length < offset - 4 then
        none  -- slice start past the end of the buffer panics
      else if readN < 4 then
        some (0, readErr)
      else
        some (readN - 4, readErr)

/-! ## Route/State Event Monitor (tun_dragonfly.go, `routineRouteListener`)

```
var ( statusUp bool; statusMTU int )
...
up := (iface.Flags & net.FlagUp) != 0
if up != statusUp && up   { tun.events <- TUNEventUp }
if up != statusUp && !up  { tun.events <- TUNEventDown }
statusUp = up
if iface.MTU != statusMTU { tun.events <- TUNEventMTUUpdate }
statusMTU = iface.MTU
```
The monitor's remembered state is `(statusUp, statusMTU)`, zero-initialized
by Go (`false`, `0`).  One loop iteration that passed the message filters
and re-queried the interface is `routeStep`. -/

/-- The typed events the monitor emits (`TUNEvent` constants). -/
inductive TUNEvent where
  | Up
  | Down
  | MTUUpdate
deriving DecidableEq, Repr

/-- Re-queried interface state: the `up` flag from `iface.Flags` and
`iface.MTU` (a Go `int`). -/
structure IfaceStatus where
  up : Bool
  mtu : Int
deriving DecidableEq, Repr

/-- Monitor-local remembered state (`statusUp`, `statusMTU`). -/
structure MonitorState where
  statusUp : Bool
  statusMTU : Int
deriving DecidableEq, Repr

/-- Go zero-initialization of the monitor locals: `false` / `0`. -/
def monitorInit : MonitorState := { statusUp := false, statusMTU := 0 }

/-- One iteration of the monitor loop on a notification that matched the
owned interface, after re-querying the interface: the new remembered state
and the events pushed to `tun.events`, in emission order. -/
def routeStep (s : MonitorState) (iface : IfaceStatus) :
    MonitorState × List TUNEvent :=
  let upEvts : List TUNEvent :=
    (if iface.up ≠ s.statusUp ∧ iface.up then [TUNEvent.Up] else []) ++
    (if iface.up ≠ s.statusUp ∧ ¬iface.up then [TUNEvent.Down] else [])
  let mtuEvts : List TUNEvent :=
    if iface.mtu ≠ s.statusMTU then [TUNEvent.MTUUpdate] else []
  ({ statusUp := iface.up, statusMTU := iface.mtu }, upEvts ++ mtuEvts)

/-- A raw routing-socket message as the monitor sees it: the byte count
returned by `unix.Read`, the kind tag at `data[3]` and the 16-bit interface
index at `data[12]`. -/
structure RouteMsg where
  len : Nat
  msgType : Nat
  ifindex : Nat
deriving DecidableEq, Repr

/-- The message filter of one loop iteration: messages shorter than 14
bytes, of a kind other than `RTM_IFINFO`, or for a different interface
index are discarded (`continue`). -/
def routeMsgMatches (tunIfindex : Nat) (m : RouteMsg) : Bool :=
  14 ≤ m.len && m.msgType = RTM_IFINFO && m.ifindex = tunIfindex

/-- Processing a sequence of matching notifications (the re-queried
interface states) from a given monitor state: all emitted events in
order. -/
def routeRun (s : MonitorState) : List IfaceStatus → List TUNEvent
  | [] => []
  | i :: rest =>
      (routeStep s i).2 ++ routeRun (routeStep s i).1 rest

/-! ## `Close` (tun_dragonfly.go, `func (tun *nativeTun) Close`)

```
var err4 error
if tun.name != tun.origName { err4 = renameTun(tun.name, tun.origName) }
err2 := tun.fd.Close()
err1 := tun.rwcancel.Cancel()
if tun.routeSocket != -1 {
    unix.Shutdown(tun.routeSocket, unix.SHUT_RDWR)
    err4 = unix.Close(tun.routeSocket)
    tun.routeSocket = -1
} else if tun.events != nil {
    close(tun.events)
}
if err1 != nil { return err1 }
if err2 != nil { return err2 }
return err4
```
Note the second assignment to `err4`: whenever a routing socket is open it
replaces the rename result. -/

/-- The fields of `nativeTun` that `Close` consults. -/
structure TunState where
  name : String
  origName : String
  routeSocket : Int
deriving DecidableEq, Repr

/-- Results of the OS calls `Close` may make: `renameTun(name, origName)`,
`tun.fd.Close()`, `tun.rwcancel.Cancel()` and `unix.Close(routeSocket)`
(`none` = success). -/
structure CloseEnv where
  renameErr : Option Err
  fdCloseErr : Option Err
  cancelErr : Option Err
  routeCloseErr : Option Err
deriving DecidableEq, Repr

/-- The observable teardown actions of one `Close` call, in program order. -/
inductive CloseAction where
  | renameRestore
  | closeFd
  | cancelWrapper
  | shutdownRoute
  | closeRoute
  | closeEvents
deriving DecidableEq, Repr

/-- Outcome of `Close`: the exact action sequence and the returned error. -/
structure CloseTrace where
  actions : List CloseAction
  result : Option Err
deriving DecidableEq, Repr

/-- Function `nativeTun.Close`, with every OS-call result drawn from `env`. -/
def nativeTunClose (t : TunState) (env : CloseEnv) : CloseTrace :=
  let doRename := t.name ≠ t.origName
  let err4init : Option Err := if doRename then env.renameErr else none
  let err2 := env.fdCloseErr
  let err1 := env.cancelErr
  let err4 : Option Err :=
    if t.routeSocket ≠ -1 then env.routeCloseErr else err4init
  let acts : List CloseAction :=
    (if doRename then [CloseAction.renameRestore] else []) ++
    [CloseAction.closeFd, CloseAction.cancelWrapper] ++
    (if t.routeSocket ≠ -1 then
      [CloseAction.shutdownRoute, CloseAction.closeRoute]
     else [CloseAction.closeEvents]) -- tun.events is always non-nil for a created handle
  { actions := acts
    result :=
      match err1 with
      | some e => some e
      | none =>
          match err2 with
          | some e => some e
          | none => err4 }

/-! ## `CreateTUN` (tun_dragonfly.go, `func CreateTUN`)

```
if len(name) > unix.IFNAMSIZ-1 { return nil, errors.New("interface name too long") }
iface, err := net.InterfaceByName(name)
if iface != nil { return nil, fmt.Errorf("interface %s already exists", name) }
for i := 0; i < 99; i++ {
    tunfile, err = os.OpenFile(fmt.Sprintf("/dev/tun%d", i), unix.O_RDWR, 0)
    if err == nil { break }
}
if tunfile == nil {
    tunfile, err = os.OpenFile("/dev/tun", unix.O_RDWR, 0)
    if err != nil { return nil, err }
}
assignedName, err := tunName(tunfd)
if err != nil { tunfile.Close(); return nil, err }
/* TUNSIFHEAD ioctl */  if errno != 0 { return nil, fmt.Errorf(...) }
/* TUNSIFMODE ioctl */  if errno != 0 { return nil, fmt.Errorf(...) }
err = renameTun(assignedName, name)
if err != nil { tunfile.Close(); return nil, err }
natTun, err = CreateTUNFromFile(tunfile, mtu)
if err != nil { tunfile.Close(); return nil, err }
natTun.origName = assignedName
return natTun, err
```
Note: the two ioctl failure branches return without `tunfile.Close()`. -/

/-- OS results consumed by `CreateTUN`: whether an interface with the
requested name already exists, which numbered device nodes open
successfully, the outcome of opening the generic `/dev/tun` node, name
discovery, the two mode ioctls, the rename, and handle construction
(`none` / `.ok` = success). -/
structure CreateEnv where
  nameExists : Bool
  openTunN : Nat → Bool
  openGenericErr : Option Err
  tunNameResult : Except Err String
  ifheadErrno : Option Err
  ifmodeErrno : Option Err
  renameErr : Option Err
  fromFileErr : Option Err

/-- Outcome of `CreateTUN`: how many `os.OpenFile` calls were made, whether
a device descriptor was (successfully) opened, whether `CreateTUN` closed
it before returning, and the result (`.ok` carries the recorded original
kernel-assigned name). -/
structure CreateTrace where
  openCalls : Nat
  opened : Bool
  closedFd : Bool
  result : Except Err String
deriving DecidableEq, Repr

/-- The `/dev/tunN` probe loop: starting at index `i` with `fuel` attempts
left, the index of the first node that opens (or `none`) and the number of
`os.OpenFile` calls made. -/
def probeLoop (openTunN : Nat → Bool) : Nat → Nat → Option Nat × Nat
  | _, 0 => (none, 0)
  | i, fuel + 1 =>
      if openTunN i then (some i, 1)
      else
        let r := probeLoop openTunN (i + 1) fuel
        (r.1, r.2 + 1)

/-- The steps of `CreateTUN` after a descriptor has been opened
(`openCalls` open attempts were made to get it). -/
def createAfterOpen (env : CreateEnv) (openCalls : Nat) : CreateTrace :=
  match env.tunNameResult with
  | Except.error e =>
      { openCalls, opened := true, closedFd := true, result := Except.error e }
  | Except.ok assignedName =>
      match env.ifheadErrno with
      | some e =>
          -- the TUNSIFHEAD failure branch returns without closing tunfile
          { openCalls, opened := true, closedFd := false, result := Except.error e }
      | none =>
          match env.ifmodeErrno with
          | some e =>
              -- the TUNSIFMODE failure branch returns without closing tunfile
              { openCalls, opened := true, closedFd := false, result := Except.error e }
          | none =>
              match env.renameErr with
              | some e =>
                  { openCalls, opened := true, closedFd := true, result := Except.error e }
              | none =>
                  match env.fromFileErr with
                  | some e =>
                      { openCalls, opened := true, closedFd := true, result := Except.error e }
                  | none =>
                      { openCalls, opened := true, closedFd := false,
                        result := Except.ok assignedName }

/-- The error value of the name-length check. -/
def errNameTooLong : Err := "interface name too long"

/-- The error value of the interface-exists check. -/
def errAlreadyExists : Err := "interface already exists"

/-- Function `CreateTUN`.  Here `name.length` stands for Go's `len(name)` (byte length;
identical for the ASCII names interface names are). -/
def createTUN (name : String) (env : CreateEnv) : CreateTrace :=
  if name.length > IFNAMSIZ - 1 then
    { openCalls := 0, opened := false, closedFd := false,
      result := Except.error errNameTooLong }
  else if env.nameExists then
    { openCalls := 0, opened := false, closedFd := false,
      result := Except.error errAlreadyExists }
  else
    let probe := probeLoop env.openTunN 0 99
    match probe.1 with
    | some _ => createAfterOpen env probe.2
    | none =>
        match env.openGenericErr with
        | some e =>
            { openCalls := probe.2 + 1, opened := false, closedFd := false,
              result := Except.error e }
        | none => createAfterOpen env (probe.2 + 1)

/-! ## Device Bind Coordinator (conn.go: `unsafeCloseBind`, `BindSetMark`, `BindUpdate`)

Locking (net mutex then peers mutex) serializes these operations, so each
is modelled as a pure state transition on the device state; the platform
`Bind` operations (`CreateBind`, `Bind.SetMark`, `Bind.Close`) are drawn
from an environment, and each trace records how many times the underlying
`bind.SetMark` / `bind.Close` were invoked. -/

/-- An active `Bind` is identified abstractly. -/
abbrev BindId := Nat

/-- An `Endpoint`: cached destination and (clearable) source address.
`ClearSrc()` discards the source only. -/
structure EndpointState where
  dst : Nat
  src : Option Nat
deriving DecidableEq, Repr

/-- A peer record as `BindUpdate` sees it: its (nullable) endpoint. -/
structure Peer where
  endpoint : Option EndpointState
deriving DecidableEq, Repr

/-- State `device.net`: the active bind (nil when unbound), the bound port
(`uint16`), and the firewall mark (`uint32`). -/
structure NetState where
  bind : Option BindId
  port : Nat
  fwmark : Nat
deriving DecidableEq, Repr

/-- The device fields these operations touch: `device.net`,
`device.isUp.Get()` and `device.peers.keyMap` (as a list of peer records;
map iteration order is irrelevant to the modelled effects). -/
structure DeviceState where
  net : NetState
  isUp : Bool
  peers : List Peer
deriving DecidableEq, Repr

/-- Results of platform bind operations: `network.CreateBind(port)` yields
a new bind and the actually-bound port or an error; `bind.SetMark(mark)`
and `bind.Close()` yield an optional error. -/
structure BindEnv where
  createBind : Nat → Except Err (BindId × Nat)
  setMarkErr : BindId → Nat → Option Err
  closeBindErr : BindId → Option Err

/-- Function `unsafeCloseBind`: closes and nils the bind when present.  Returns the
new net state, the `Bind.Close` error, and the number of `Close` calls. -/
def unsafeCloseBind (env : BindEnv) (net : NetState) :
    NetState × Option Err × Nat :=
  match net.bind with
  | some b => ({ net with bind := none }, env.closeBindErr b, 1)
  | none => (net, none, 0)

/-- Outcome of `BindSetMark`: new device state, returned error, and the
number of underlying `bind.SetMark` invocations. -/
structure SetMarkTrace where
  dev : DeviceState
  result : Option Err
  setMarkCalls : Nat
deriving DecidableEq, Repr

/-- Function `Device.BindSetMark`:
```
if device.net.fwmark == mark { return nil }
device.net.fwmark = mark
if device.isUp.Get() && device.net.bind != nil {
    if err := device.net.bind.SetMark(mark); err != nil { return err }
}
return nil
``` -/
def bindSetMark (env : BindEnv) (d : DeviceState) (mark : Nat) : SetMarkTrace :=
  if d.net.fwmark = mark then
    { dev := d, result := none, setMarkCalls := 0 }
  else
    let d1 : DeviceState := { d with net := { d.net with fwmark := mark } }
    match d.net.bind, d.isUp with
    | some b, true =>
        { dev := d1, result := env.setMarkErr b mark, setMarkCalls := 1 }
    | _, _ => { dev := d1, result := none, setMarkCalls := 0 }

/-- Call `peer.endpoint.ClearSrc()` guarded by `peer.endpoint != nil`: the
updated peer and the number of `ClearSrc` calls made on it. -/
def clearPeerSrc (p : Peer) : Peer × Nat :=
  match p.endpoint with
  | some e => ({ endpoint := some { e with src := none } }, 1)
  | none => (p, 0)

/-- Outcome of `BindUpdate`: new device state, returned error, per-peer
`ClearSrc` call counts (aligned with the peer list), and the number of
receive routines started. -/
structure UpdateTrace where
  dev : DeviceState
  result : Option Err
  clearCalls : List Nat
  recvRoutines : Nat
deriving DecidableEq, Repr

/-- Function `Device.BindUpdate`:
```
if err := unsafeCloseBind(device); err != nil { return err }
if device.isUp.Get() {
    netc.bind, netc.port, err = device.net.network.CreateBind(netc.port)
    if err != nil { netc.bind = nil; netc.port = 0; return err }
    if netc.fwmark != 0 {
        err = netc.bind.SetMark(netc.fwmark)
        if err != nil { return err }
    }
    for _, peer := range device.peers.keyMap {
        if peer.endpoint != nil { peer.endpoint.ClearSrc() }
    }
    go device.RoutineReceiveIncoming(ipv4.Version, netc.bind)
    go device.RoutineReceiveIncoming(ipv6.Version, netc.bind)
}
return nil
``` -/
def bindUpdate (env : BindEnv) (d : DeviceState) : UpdateTrace :=
  let closed := unsafeCloseBind env d.net
  let noClears := d.peers.map (fun _ => 0)
  match closed.2.1 with
  | some e =>
      { dev := { d with net := closed.1 }, result := some e,
        clearCalls := noClears, recvRoutines := 0 }
  | none =>
      if d.isUp then
        match env.createBind closed.1.port with
        | Except.error e =>
            { dev := { d with net := { closed.1 with bind := none, port := 0 } },
              result := some e, clearCalls := noClears, recvRoutines := 0 }
        | Except.ok bp =>
            let net1 : NetState := { closed.1 with bind := some bp.1, port := bp.2 }
            let markErr : Option Err :=
              if net1.fwmark ≠ 0 then env.setMarkErr bp.1 net1.fwmark else none
            match markErr with
            | some e =>
                { dev := { d with net := net1 }, result := some e,
                  clearCalls := noClears, recvRoutines := 0 }
            | none =>
                let cleared := d.peers.map clearPeerSrc
                { dev := { d with net := net1, peers := cleared.map Prod.fst },
                  result := none, clearCalls := cleared.map Prod.snd,
                  recvRoutines := 2 }
      else
        { dev := { d with net := closed.1 }, result := none,
          clearCalls := noClears, recvRoutines := 0 }

/-- Function `Device.BindClose`: closes and nils the bind under the net lock. -/
def bindClose (env : BindEnv) (d : DeviceState) : DeviceState × Option Err :=
  let closed := unsafeCloseBind env d.net
  ({ d with net := closed.1 }, closed.2.1)

/-! ## Concrete sample instances, used to evaluate the modelled operations
on closed inputs. -/

/-- A bind environment in which every platform operation succeeds;
`CreateBind` hands out bind 7 on the requested port. -/
def sampleBindEnvOk : BindEnv where
  createBind := fun p => Except.ok (7, p)
  setMarkErr := fun _ _ => none
  closeBindErr := fun _ => none

/-- A bind environment in which `CreateBind` fails. -/
def sampleBindEnvCreateFail : BindEnv where
  createBind := fun _ => Except.error "bind failed"
  setMarkErr := fun _ _ => none
  closeBindErr := fun _ => none

/-- A bind environment in which `CreateBind` succeeds (bind 7, requested
port) but `Bind.SetMark` fails. -/
def sampleBindEnvMarkFail : BindEnv where
  createBind := fun p => Except.ok (7, p)
  setMarkErr := fun _ _ => some "setmark failed"
  closeBindErr := fun _ => none

/-- An administratively-up device: active bind 1 on port 51820, firewall
mark 5, one peer with a populated endpoint and one peer without. -/
def sampleDeviceUp : DeviceState where
  net := { bind := some 1, port := 51820, fwmark := 5 }
  isUp := true
  peers := [{ endpoint := some { dst := 10, src := some 20 } }, { endpoint := none }]

/-- The same device, administratively down. -/
def sampleDeviceDown : DeviceState :=
  { sampleDeviceUp with isUp := false }

/-- A create environment in which every step succeeds: `/dev/tun2` is the
first free node and the kernel assigns the name `tun2`. -/
def sampleCreateEnvOk : CreateEnv where
  nameExists := false
  openTunN := fun i => i == 2
  openGenericErr := none
  tunNameResult := Except.ok "tun2"
  ifheadErrno := none
  ifmodeErrno := none
  renameErr := none
  fromFileErr := none

/-! # Theorems -/

/-- C5: whenever `Write` accepts a buffer and header offset, the payload's
first byte is `buff[offset]`, and the emitted 4-byte prefix has its first 3
bytes zero and its 4th byte equal to the IPv6 address-family tag
(`AF_INET6`) when the high nibble of that byte equals the IPv6 version
marker, and the IPv4 tag (`AF_INET`) otherwise. -/
theorem Write_sets_family_tag (buff out : List Nat) (offset : Nat)
    (h : tunWrite buff offset = some out) :
    ∃ first, buff[offset]? = some first ∧
      out.take 4 =
        [0, 0, 0, if first / 16 = ipv6Version then AF_INET6 else AF_INET] := by
  simp only [tunWrite] at h
  split at h
  · exact Option.noConfusion h
  · rename_i hoff
    split at h
    · exact Option.noConfusion h
    · rename_i first hfirst
      refine ⟨first, ?_, ?_⟩
      · have h4 : offset - 4 + 4 = offset := by omega
        calc buff[offset]? = buff[offset - 4 + 4]? := by rw [h4]
          _ = (buff.drop (offset - 4))[4]? := (List.getElem?_drop buff _ 4).symm
          _ = some first := hfirst
      · injection h with h
        rw [← h]
        rfl

/-- Witness for `Write_sets_family_tag` at the concrete IPv6-marked payload
`[96, 5]` written at offset 4. -/
theorem Write_sets_family_tag_witness :
    ∃ first, ([1, 2, 3, 4, 96, 5] : List Nat)[4]? = some first ∧
      ([0, 0, 0, 28, 96, 5] : List Nat).take 4 =
        [0, 0, 0, if first / 16 = ipv6Version then AF_INET6 else AF_INET] :=
  Write_sets_family_tag [1, 2, 3, 4, 96, 5] [0, 0, 0, 28, 96, 5] 4 (by decide)

/-- C6: `doRead` with a pending fatal error returns it immediately with
length 0 whatever the device would deliver; with an empty fatal-error slot
and an in-bounds slice, an underlying read of `n` bytes yields `n - 4` when
`n ≥ 4` and length 0 with the read's own error (or none) when `n < 4`. -/
theorem doRead_fatal_slot_and_length (readN : Nat) (readErr : Option Err)
    (buff : List Nat) (offset : Nat) (e : Err) :
    doRead (some e) readN readErr buff offset = some (0, some e) ∧
    (4 ≤ offset → offset - 4 ≤ buff.length →
      doRead none readN readErr buff offset =
        if 4 ≤ readN then some (readN - 4, readErr) else some (0, readErr)) := by
  constructor
  · rfl
  · intro h1 h2
    simp only [doRead]
    rw [if_neg (by omega), if_neg (by omega)]
    by_cases hr : readN < 4
    · rw [if_pos hr, if_neg (by omega)]
    · rw [if_neg hr, if_pos (by omega)]

/-- Witness for `doRead_fatal_slot_and_length`: a pending fatal error wins
over any read; a 10-byte read at offset 4 yields length 6. -/
theorem doRead_fatal_slot_and_length_witness :
    doRead (some "fatal") 10 none [0] 0 = some (0, some "fatal") ∧
    doRead none 10 none [0, 0, 0, 0] 4 =
      if 4 ≤ 10 then some (10 - 4, (none : Option Err))
      else some (0, (none : Option Err)) :=
  ⟨(doRead_fatal_slot_and_length 10 none [0] 0 "fatal").1,
   (doRead_fatal_slot_and_length 10 none [0, 0, 0, 0] 4 "fatal").2
     (by decide) (by decide)⟩

/-- C9 counterexample: the claim predicts that every call with a buffer
shorter than `headerOffset + 1` is out of bounds, but `doRead` on a 4-byte
buffer at offset 4 (shorter than `4 + 1`) succeeds: only `Write` needs the
buffer to extend past the header region. -/
theorem Read_short_buffer_not_out_of_bounds :
    ([0, 0, 0, 0] : List Nat).length < 4 + 1 ∧
    doRead none 4 none [0, 0, 0, 0] 4 = some (0, none) := by
  exact ⟨by decide, rfl⟩

/-- C9 amended: `Write`'s buffer accesses are in bounds (the embedding
returns `some`) exactly when `headerOffset ≥ 4` and the buffer extends past
the header region (`len(buffer) > headerOffset`); `doRead`'s slice (with an
empty fatal-error slot) is in bounds exactly when `headerOffset ≥ 4` and
`headerOffset - 4 ≤ len(buffer)` — a buffer need not extend past the
header region for `Read`. -/
theorem ReadWrite_bounds (buff : List Nat) (offset readN : Nat)
    (readErr : Option Err) :
    ((tunWrite buff offset).isSome = true ↔
      4 ≤ offset ∧ offset < buff.length) ∧
    ((doRead none readN readErr buff offset).isSome = true ↔
      4 ≤ offset ∧ offset - 4 ≤ buff.length) := by
  constructor
  · simp only [tunWrite]
    by_cases h : offset < 4
    · rw [if_pos h]
      simp
      omega
    · rw [if_neg h]
      rcases hg : (buff.drop (offset - 4))[4]? with _ | first
      · rw [List.getElem?_eq_none_iff, List.length_drop] at hg
        simp [hg]
        omega
      · have hlt : 4 < (buff.drop (offset - 4)).length := by
          by_contra hc
          rw [List.getElem?_eq_none_iff.mpr (by omega)] at hg
          exact Option.noConfusion hg
        rw [List.length_drop] at hlt
        simp [hg]
        omega
  · simp only [doRead]
    by_cases h1 : offset < 4
    · rw [if_pos h1]
      simp
      omega
    · rw [if_neg h1]
      by_cases h2 : buff.length < offset - 4
      · rw [if_pos h2]
        simp
        omega
      · rw [if_neg h2]
        have : (if readN < 4 then some (0, readErr)
                else some (readN - 4, readErr)).isSome = true := by
          by_cases hr : readN < 4
          · rw [if_pos hr]
            rfl
          · rw [if_neg hr]
            rfl
        rw [this]
        simp
        omega

/-- C3: the route monitor is edge-triggered against its remembered state,
which starts as down/zero: a step emits `Up` exactly on a false-to-true
transition of the up flag, `Down` exactly on a true-to-false transition,
nothing for a repeated identical flag state, and exactly one `MTUUpdate`
exactly when the re-queried MTU differs from the last observed value; the
step ends remembering the observed flag and MTU, and a run over a sequence
of matching notifications concatenates the steps' events in order. -/
theorem routineRouteListener_edge_triggered (s : MonitorState) (i : IfaceStatus) :
    monitorInit = { statusUp := false, statusMTU := 0 } ∧
    (routeStep s i).2.count TUNEvent.Up =
      (if s.statusUp = false ∧ i.up = true then 1 else 0) ∧
    (routeStep s i).2.count TUNEvent.Down =
      (if s.statusUp = true ∧ i.up = false then 1 else 0) ∧
    (routeStep s i).2.count TUNEvent.MTUUpdate =
      (if i.mtu ≠ s.statusMTU then 1 else 0) ∧
    (routeStep s i).1 = { statusUp := i.up, statusMTU := i.mtu } ∧
    ∀ rest, routeRun s (i :: rest) =
      (routeStep s i).2 ++ routeRun (routeStep s i).1 rest := by
  obtain ⟨su, sm⟩ := s
  obtain ⟨iu, im⟩ := i
  refine ⟨rfl, ?_, ?_, ?_, rfl, fun rest => rfl⟩ <;>
    cases su <;> cases iu <;> by_cases h : im = sm <;>
      simp [routeStep, h, List.count_cons, List.count_append]

/-- C1 (failing input): on a handle whose name was changed (`wg0` vs the
original `tun0`) and whose routing socket is open (`routeSocket = 3`),
`Close` does issue the rename restore before closing the descriptor and
still closes the descriptor, but when the rename is the only failing step
the returned error is `none`: the rename error captured in `err4` is
overwritten by the (successful) routing-socket close, so it is not the
returned error as the claim requires. -/
theorem Close_rename_error_lost :
    nativeTunClose { name := "wg0", origName := "tun0", routeSocket := 3 }
        { renameErr := some "rename failed", fdCloseErr := none,
          cancelErr := none, routeCloseErr := none } =
      { actions := [CloseAction.renameRestore, CloseAction.closeFd,
                    CloseAction.cancelWrapper, CloseAction.shutdownRoute,
                    CloseAction.closeRoute],
        result := none } := by
  decide

/-- C2 (failing input): with `/dev/tun0` free and every step up to name
discovery succeeding, a failing `TUNSIFHEAD` ioctl makes `CreateTUN` return
the error with the opened descriptor left unclosed, contradicting the
claim that every failing step after the open closes the descriptor (the
other failure branches do close it). -/
theorem CreateTUN_ioctl_failure_leaks_descriptor :
    createTUN "wg0"
        { nameExists := false, openTunN := fun i => i == 0,
          openGenericErr := none, tunNameResult := Except.ok "tun0",
          ifheadErrno := some "ifhead ioctl failed", ifmodeErrno := none,
          renameErr := none, fromFileErr := none } =
      { openCalls := 1, opened := true, closedFd := false,
        result := Except.error "ifhead ioctl failed" } := by
  decide

/-- C8: a name longer than the platform limit (`IFNAMSIZ - 1`) makes
`CreateTUN` fail with the length error after zero `os.OpenFile` calls, and
an already-existing name makes it fail with the already-exists error, also
after zero `os.OpenFile` calls — in both cases before any descriptor is
opened. -/
theorem CreateTUN_name_validation (name : String) (env : CreateEnv) :
    (IFNAMSIZ - 1 < name.length →
      createTUN name env =
        { openCalls := 0, opened := false, closedFd := false,
          result := Except.error errNameTooLong }) ∧
    (name.length ≤ IFNAMSIZ - 1 → env.nameExists = true →
      createTUN name env =
        { openCalls := 0, opened := false, closedFd := false,
          result := Except.error errAlreadyExists }) := by
  constructor
  · intro h
    unfold createTUN
    rw [if_pos (show name.length > IFNAMSIZ - 1 from h)]
  · intro h1 h2
    unfold createTUN
    rw [if_neg (by omega), if_pos h2]

/-- Witness for `CreateTUN_name_validation`: a 16-character name trips the
length check; an existing 3-character name trips the exists check. -/
theorem CreateTUN_name_validation_witness :
    createTUN "0123456789abcdef" sampleCreateEnvOk =
      { openCalls := 0, opened := false, closedFd := false,
        result := Except.error errNameTooLong } ∧
    createTUN "wg0" { sampleCreateEnvOk with nameExists := true } =
      { openCalls := 0, opened := false, closedFd := false,
        result := Except.error errAlreadyExists } :=
  ⟨(CreateTUN_name_validation "0123456789abcdef" sampleCreateEnvOk).1
     (by decide),
   (CreateTUN_name_validation "wg0"
      { sampleCreateEnvOk with nameExists := true }).2 (by decide) rfl⟩

/-- Helper: `unsafeCloseBind` always leaves the bind nil and preserves port
and firewall mark, and it calls `Bind.Close` exactly once when a bind was
present and never otherwise. -/
theorem unsafeCloseBind_state (env : BindEnv) (net : NetState) :
    (unsafeCloseBind env net).1 =
      { bind := none, port := net.port, fwmark := net.fwmark } ∧
    (unsafeCloseBind env net).2.2 = (if net.bind.isSome then 1 else 0) := by
  obtain ⟨nb, np, nf⟩ := net
  cases nb <;> simp [unsafeCloseBind]

/-- Helper: the value of `BindUpdate` on an administratively-up device when
closing the old bind, `CreateBind`, and (if the stored mark is nonzero)
`Bind.SetMark` all succeed. -/
theorem bindUpdate_up_success (env : BindEnv) (d : DeviceState)
    (b : BindId) (p' : Nat)
    (hclose : (unsafeCloseBind env d.net).2.1 = none) (hup : d.isUp = true)
    (hcb : env.createBind d.net.port = Except.ok (b, p'))
    (hmark : d.net.fwmark ≠ 0 → env.setMarkErr b d.net.fwmark = none) :
    bindUpdate env d =
      { dev := { d with
          net := { bind := some b, port := p', fwmark := d.net.fwmark },
          peers := d.peers.map fun p => (clearPeerSrc p).1 },
        result := none,
        clearCalls := d.peers.map fun p => (clearPeerSrc p).2,
        recvRoutines := 2 } := by
  have h1 := (unsafeCloseBind_state env d.net).1
  simp only [bindUpdate, hclose, hup, if_true, h1, hcb, List.map_map]
  by_cases hf : d.net.fwmark = 0
  · simp only [hf, ne_eq, not_true_eq_false, if_false]
    rfl
  · simp only [ne_eq, hf, not_false_eq_true, if_true, hmark hf]
    rfl

/-- C4: on an administratively-up device (with the bind swap's platform
calls succeeding), `BindUpdate` performs exactly one `ClearSrc` on every
peer holding an endpoint (and none on a peer without one, which has no
cached source address), for a peer collection of any size, and every peer
endpoint afterwards has an empty source; on a device that is not up, the
existing bind is still closed (exactly one `Bind.Close` when one was
present) but no new bind is created, no receive routine starts, and no
peer is touched. -/
theorem BindUpdate_peer_clearing (env : BindEnv) (d : DeviceState)
    (b : BindId) (p' : Nat) :
    ((unsafeCloseBind env d.net).2.1 = none → d.isUp = true →
     env.createBind d.net.port = Except.ok (b, p') →
     (d.net.fwmark ≠ 0 → env.setMarkErr b d.net.fwmark = none) →
      (bindUpdate env d).clearCalls =
        d.peers.map (fun p => if p.endpoint.isSome then 1 else 0) ∧
      (∀ p ∈ (bindUpdate env d).dev.peers, ∀ e, p.endpoint = some e →
        e.src = none) ∧
      (bindUpdate env d).dev.peers.length = d.peers.length) ∧
    (d.isUp = false →
      (bindUpdate env d).dev.net.bind = none ∧
      (bindUpdate env d).recvRoutines = 0 ∧
      (bindUpdate env d).dev.peers = d.peers ∧
      (bindUpdate env d).clearCalls = d.peers.map (fun _ => 0) ∧
      (unsafeCloseBind env d.net).2.2 = (if d.net.bind.isSome then 1 else 0)) := by
  constructor
  · intro hclose hup hcb hmark
    rw [bindUpdate_up_success env d b p' hclose hup hcb hmark]
    refine ⟨?_, ?_, ?_⟩
    · apply List.map_congr_left
      intro p _
      obtain ⟨pe⟩ := p
      cases pe <;> rfl
    · intro p hp e hpe
      simp only [List.mem_map] at hp
      obtain ⟨q, _, rfl⟩ := hp
      obtain ⟨qe⟩ := q
      cases qe with
      | none => exact Option.noConfusion hpe
      | some e0 =>
          injection hpe with hpe
          rw [← hpe]
    · simp
  · intro hdown
    have hstate := unsafeCloseBind_state env d.net
    rcases hc : (unsafeCloseBind env d.net).2.1 with _ | e <;>
      simp only [bindUpdate, hc, hdown, if_false, Bool.false_eq_true] <;>
      simp [hstate.1, hstate.2]

/-- Witness for `BindUpdate_peer_clearing` at a two-peer up device whose
platform calls all succeed: the peer with an endpoint is cleared exactly
once, the peer without an endpoint not at all. -/
theorem BindUpdate_peer_clearing_witness :
    (bindUpdate sampleBindEnvOk sampleDeviceUp).clearCalls = [1, 0] ∧
    (bindUpdate sampleBindEnvOk sampleDeviceUp).dev.peers =
      [{ endpoint := some { dst := 10, src := none } }, { endpoint := none }] := by
  have h := (BindUpdate_peer_clearing sampleBindEnvOk sampleDeviceUp 7 51820).1
    rfl rfl rfl (fun _ => rfl)
  exact ⟨h.1.trans (by decide), by decide⟩

/-- C7: `BindSetMark` is idempotent: over two consecutive calls with the
same mark the underlying `Bind.SetMark` runs at most once (the second call
always sees the stored mark equal and does nothing), and a single call
whose mark equals the stored firewall mark returns success with the device
unchanged and zero `Bind.SetMark` invocations. -/
theorem BindSetMark_idempotent (env : BindEnv) (d : DeviceState) (mark : Nat) :
    (bindSetMark env d mark).setMarkCalls +
      (bindSetMark env (bindSetMark env d mark).dev mark).setMarkCalls ≤ 1 ∧
    (d.net.fwmark = mark →
      bindSetMark env d mark = { dev := d, result := none, setMarkCalls := 0 }) := by
  have hid : ∀ D : DeviceState, D.net.fwmark = mark →
      bindSetMark env D mark = { dev := D, result := none, setMarkCalls := 0 } := by
    intro D hD
    unfold bindSetMark
    rw [if_pos hD]
  refine ⟨?_, hid d⟩
  have hfw : (bindSetMark env d mark).dev.net.fwmark = mark := by
    unfold bindSetMark
    by_cases h : d.net.fwmark = mark
    · rw [if_pos h]
      exact h
    · rw [if_neg h]
      rcases hb : d.net.bind with _ | b <;> rcases hu : d.isUp <;> simp
  have hfirst : (bindSetMark env d mark).setMarkCalls ≤ 1 := by
    unfold bindSetMark
    by_cases h : d.net.fwmark = mark
    · rw [if_pos h]
      exact Nat.zero_le 1
    · rw [if_neg h]
      rcases hb : d.net.bind with _ | b <;> rcases hu : d.isUp <;> simp
  rw [hid _ hfw]
  simpa using hfirst

/-- Witness for `BindSetMark_idempotent` at the sample up device whose
stored firewall mark is 5, called with mark 5. -/
theorem BindSetMark_idempotent_witness :
    (bindSetMark sampleBindEnvOk sampleDeviceUp 5).setMarkCalls +
      (bindSetMark sampleBindEnvOk
        (bindSetMark sampleBindEnvOk sampleDeviceUp 5).dev 5).setMarkCalls ≤ 1 ∧
    bindSetMark sampleBindEnvOk sampleDeviceUp 5 =
      { dev := sampleDeviceUp, result := none, setMarkCalls := 0 } :=
  ⟨(BindSetMark_idempotent sampleBindEnvOk sampleDeviceUp 5).1,
   (BindSetMark_idempotent sampleBindEnvOk sampleDeviceUp 5).2 rfl⟩

/-- C10: `BindUpdate` is not atomic on failure: when `CreateBind` fails on
an up device (after the old bind closed cleanly), the returned error comes
with the bind nil and the stored port reset to 0 rather than the previous
port; when `CreateBind` succeeds but applying a nonzero stored mark fails,
the error is returned while the new bind stays installed as the active
bind. -/
theorem BindUpdate_not_atomic_on_failure (env : BindEnv) (d : DeviceState)
    (e : Err) (b : BindId) (p' : Nat) :
    ((unsafeCloseBind env d.net).2.1 = none → d.isUp = true →
     env.createBind d.net.port = Except.error e →
      (bindUpdate env d).result = some e ∧
      (bindUpdate env d).dev.net.bind = none ∧
      (bindUpdate env d).dev.net.port = 0) ∧
    ((unsafeCloseBind env d.net).2.1 = none → d.isUp = true →
     env.createBind d.net.port = Except.ok (b, p') →
     d.net.fwmark ≠ 0 → env.setMarkErr b d.net.fwmark = some e →
      (bindUpdate env d).result = some e ∧
      (bindUpdate env d).dev.net.bind = some b) := by
  have h1 := (unsafeCloseBind_state env d.net).1
  constructor
  · intro hclose hup hcb
    simp only [bindUpdate, hclose, hup, if_true, h1, hcb]
    exact ⟨trivial, trivial, trivial⟩
  · intro hclose hup hcb hf hmark
    simp only [bindUpdate, hclose, hup, if_true, h1, hcb, ne_eq, hf,
      not_false_eq_true, if_true, hmark]
    exact ⟨trivial, trivial⟩

/-- Witness for `BindUpdate_not_atomic_on_failure`: a failing `CreateBind`
leaves bind nil and port 0 (the configured port 51820 is lost); a failing
`Bind.SetMark` returns the error with the new bind 7 installed. -/
theorem BindUpdate_not_atomic_witness :
    ((bindUpdate sampleBindEnvCreateFail sampleDeviceUp).result =
        some "bind failed" ∧
      (bindUpdate sampleBindEnvCreateFail sampleDeviceUp).dev.net.bind = none ∧
      (bindUpdate sampleBindEnvCreateFail sampleDeviceUp).dev.net.port = 0) ∧
    ((bindUpdate sampleBindEnvMarkFail sampleDeviceUp).result =
        some "setmark failed" ∧
      (bindUpdate sampleBindEnvMarkFail sampleDeviceUp).dev.net.bind = some 7) :=
  ⟨(BindUpdate_not_atomic_on_failure sampleBindEnvCreateFail sampleDeviceUp
      "bind failed" 0 0).1 rfl rfl rfl,
   (BindUpdate_not_atomic_on_failure sampleBindEnvMarkFail sampleDeviceUp
      "setmark failed" 7 51820).2 rfl rfl rfl (by decide) rfl⟩
